import Mathlib

/-!
Verification development for the sportsbet repository.

The Python sources are shallowly embedded below.  Numbers are modelled as
rationals (`ℚ`); pandas/NumPy missing values (`NaN` / `None`) are modelled
with `Option`; code paths that raise an uncaught Python exception are
modelled with an explicit `raise`-style constructor or `Except.error`.
-/

namespace SB

/-! ## OddsConverter

Embeddings of `convert_to_american_odds` (identical in MLB2025.py lines
48-55, MLB2025fork1.py lines 49-56 and Football2025.py lines 57-64) and
`convert_american_to_decimal` (MLB2025fork1.py lines 71-82). -/

/-- A Python value reaching `convert_to_american_odds`: a real number, a
not-a-number/None value (`pd.isna` true), or a non-numeric object
(`isinstance(x, (int, float))` false). -/
inductive PyNum where
  | num (q : ℚ)
  | nan
  | notNumber
deriving DecidableEq

/-- Outcome of `convert_to_american_odds`: a returned number, a returned
`None`, or an uncaught `ZeroDivisionError`. -/
inductive ConvResult where
  | value (q : ℚ)
  | retNone
  | raise
deriving DecidableEq

/-- Embedding of `convert_to_american_odds` (MLB2025.py lines 48-55).
`pd.isna(x)` or a non-numeric input returns `None`; `decimal_odds >= 2.0`
returns `(decimal_odds * 100) - 100`; otherwise the code computes
`-100 / (decimal_odds - 1)`, which raises `ZeroDivisionError` when
`decimal_odds == 1`. -/
def convert_to_american_odds (decimal_odds : PyNum) : ConvResult :=
  match decimal_odds with
  | .nan => .retNone
  | .notNumber => .retNone
  | .num q =>
    if 2 ≤ q then .value (q * 100 - 100)
    else if q = 1 then .raise
    else .value (-100 / (q - 1))

/-- A Python value reaching `convert_american_to_decimal`: a parseable
number, a NaN/None value, the empty string, or a value `float(...)` rejects
with `ValueError`/`TypeError`. -/
inductive AmInput where
  | num (q : ℚ)
  | nan
  | emptyStr
  | unparseable
deriving DecidableEq

/-- Outcome of `convert_american_to_decimal`: a returned number, a returned
`np.nan`, or an uncaught `ZeroDivisionError`. -/
inductive DecResult where
  | value (q : ℚ)
  | nanRes
  | raise
deriving DecidableEq

/-- Embedding of `convert_american_to_decimal` (MLB2025fork1.py lines
71-82).  `pd.isna` or `''` returns `np.nan`; an unparseable value returns
`np.nan` (the `except (ValueError, TypeError)` clause); `a > 0` returns
`a/100 + 1`; otherwise the code computes `100/abs(a) + 1`, which raises
`ZeroDivisionError` at `a == 0` (that exception is not in the `except`
clause, so it propagates). -/
def convert_american_to_decimal (american_odds : AmInput) : DecResult :=
  match american_odds with
  | .nan => .nanRes
  | .emptyStr => .nanRes
  | .unparseable => .nanRes
  | .num a =>
    if 0 < a then .value (a / 100 + 1)
    else if a = 0 then .raise
    else .value (100 / (-a) + 1)

/-- The numeric branch of `convert_american_to_decimal` for a nonzero
American-odds number, used to phrase theorems. -/
def amDecVal (a : ℚ) : ℚ :=
  if 0 < a then a / 100 + 1 else 100 / (-a) + 1

/-! ## ReconciliationEngine

Embedding of the post-merge part of `perform_baseball_analysis`
(MLB2025fork1.py lines 263-310): the rows of `merged_df`, the `Status`
column, the per-row value computation on the analysis-ready subset, the
positive-value filter, the left merge-back and the timestamp sorts. -/

/-- One row of `merged_df` after the outer join on
`(Timestamp, HomeTeam, AwayTeam)`.  Timestamps are modelled as integers
(tz-normalized instants); NaN cells as `none`. -/
structure MergedRow where
  timestamp : ℤ
  homeTeam : String
  awayTeam : String
  game : Option String
  teams : Option String
  homeMLOdds : Option ℚ
  awayMLOdds : Option ℚ
  homeWinProb : Option ℚ
  awayWinProb : Option ℚ
deriving DecidableEq

/-- The four values of the `Status` column. -/
inductive Status where
  | readyForAnalysis
  | missingOdds
  | missingPrediction
  | unknown
deriving DecidableEq

/-- Embedding of the `np.select(conditions, choices, default='Unknown')`
classification (MLB2025fork1.py lines 264-270): the conditions are, in
priority order, `Home MLOdds notna ∧ HomeWinProb_pred notna`,
`Home MLOdds isna`, `HomeWinProb_pred isna`. -/
def classifyStatus (r : MergedRow) : Status :=
  if r.homeMLOdds.isSome ∧ r.homeWinProb.isSome then .readyForAnalysis
  else if r.homeMLOdds.isNone then .missingOdds
  else if r.homeWinProb.isNone then .missingPrediction
  else .unknown

/-- Embedding of `merged_df['Game'] = merged_df['Game'].fillna(merged_df['Teams'])`
(line 273). -/
def fillGame (r : MergedRow) : MergedRow :=
  { r with game := match r.game with | some g => some g | none => r.teams }

/-- The columns computed on `analysis_ready_df` (lines 283-296).  NaN cells
are `none`; `bestBetTeam` is always a string because `np.where` always
picks one of the two join-key team names. -/
structure AnalysisRow where
  homeDecimalOdds : Option ℚ
  awayDecimalOdds : Option ℚ
  homeImpliedProb : Option ℚ
  awayImpliedProb : Option ℚ
  homeValue : Option ℚ
  awayValue : Option ℚ
  bestBetTeam : String
  bestBetValue : Option ℚ
deriving DecidableEq

/-- A numeric pandas cell fed to `convert_american_to_decimal`: NaN maps to
the function's `pd.isna` branch. -/
def toAmInput (c : Option ℚ) : AmInput :=
  match c with
  | none => .nan
  | some q => .num q

/-- Lift a `DecResult` cell into the surrounding computation: a raised
`ZeroDivisionError` inside `.apply` aborts the whole analysis. -/
def decToExcept (d : DecResult) : Except Unit (Option ℚ) :=
  match d with
  | .value q => .ok (some q)
  | .nanRes => .ok none
  | .raise => .error ()

/-- NaN-propagating product used for `value = p * d - 1`. -/
def cellValue (p d : Option ℚ) : Option ℚ :=
  match p, d with
  | some p, some d => some (p * d - 1)
  | _, _ => none

/-- NaN-propagating reciprocal used for `impliedProb = 1 / decimalOdds`
(the decimal odds produced by `convert_american_to_decimal` are always
positive, so pandas division by zero never occurs here). -/
def cellInv (d : Option ℚ) : Option ℚ :=
  match d with
  | some d => some (1 / d)
  | none => none

/-- The NumPy comparison `HomeValue > AwayValue` used by `np.where`: any
comparison with NaN is false. -/
def cellGT (a b : Option ℚ) : Bool :=
  match a, b with
  | some a, some b => decide (b < a)
  | _, _ => false

/-- The `np.maximum` of two cells: NaN-propagating. -/
def cellMax (a b : Option ℚ) : Option ℚ :=
  match a, b with
  | some a, some b => some (max a b)
  | _, _ => none

/-- The per-row computation of lines 283-296 on one analysis-ready row:
decimal odds, implied probabilities, values, `BestBetTeam` via `np.where`
and `BestBetValue` via `np.maximum`.  A `ZeroDivisionError` inside
`convert_american_to_decimal` propagates. -/
def analyzeRow (r : MergedRow) : Except Unit AnalysisRow := do
  let hd ← decToExcept (convert_american_to_decimal (toAmInput r.homeMLOdds))
  let ad ← decToExcept (convert_american_to_decimal (toAmInput r.awayMLOdds))
  let hv := cellValue r.homeWinProb hd
  let av := cellValue r.awayWinProb ad
  pure
    { homeDecimalOdds := hd
      awayDecimalOdds := ad
      homeImpliedProb := cellInv hd
      awayImpliedProb := cellInv ad
      homeValue := hv
      awayValue := av
      bestBetTeam := if cellGT hv av then r.homeTeam else r.awayTeam
      bestBetValue := cellMax hv av }

/-- One row of the returned `final_df`: the merged row, its status, and the
`BestBetTeam`/`BestBetValue` columns brought in by the left merge (absent
when the row had no positive-value match). -/
structure FinalRow where
  row : MergedRow
  status : Status
  bestBetTeam : Option String
  bestBetValue : Option ℚ
deriving DecidableEq

/-- Order used by `merged_df.sort_values(by='Timestamp')`. -/
def mergedLe (a b : MergedRow) : Prop := a.timestamp ≤ b.timestamp

instance : DecidableRel mergedLe := fun a b => Int.decLe _ _

instance : IsTotal MergedRow mergedLe := ⟨fun a b => Int.le_total _ _⟩

instance : IsTrans MergedRow mergedLe := ⟨fun _ _ _ => Int.le_trans⟩

/-- Order used by `final_df.sort_values(by='Timestamp')`. -/
def finalLe (a b : FinalRow) : Prop := a.row.timestamp ≤ b.row.timestamp

instance : DecidableRel finalLe := fun a b => Int.decLe _ _

instance : IsTotal FinalRow finalLe := ⟨fun a b => Int.le_total _ _⟩

instance : IsTrans FinalRow finalLe := ⟨fun _ _ _ => Int.le_trans⟩

/-- The join key `(Timestamp, HomeTeam, AwayTeam)`. -/
def keyOf (r : MergedRow) : ℤ × String × String :=
  (r.timestamp, r.homeTeam, r.awayTeam)

/-- The filter `analysis_ready_df['BestBetValue'] > 0` (line 299): NaN
compares false. -/
def isPosVal (v : Option ℚ) : Bool :=
  match v with
  | some v => decide (0 < v)
  | none => false

/-- The left merge-back of line 302 for one left row: pandas
`merge(..., how='left')` pairs the row with *every* positive-value row
sharing its `(Timestamp, HomeTeam, AwayTeam)` key, in the right frame's
order, duplicating the left row once per match; a row with no match is
kept once with both brought-in columns NaN. -/
def mergeMatches (positive : List (MergedRow × AnalysisRow)) (r : MergedRow) : List FinalRow :=
  let hits := positive.filter (fun p => decide (keyOf p.1 = keyOf r))
  if hits.isEmpty then
    [{ row := r, status := classifyStatus r, bestBetTeam := none, bestBetValue := none }]
  else
    hits.map (fun p =>
      { row := r, status := classifyStatus r,
        bestBetTeam := some p.2.bestBetTeam, bestBetValue := p.2.bestBetValue })

/-- Lines 298-307: filter the analyzed rows to the strictly-positive
`BestBetValue` subset and left-merge it back onto the merged rows (left
row order preserved, one output row per key match); when no row was
analysis-ready, the two columns are instead added as all-NaN. -/
def buildFinalRows (sorted ready : List MergedRow)
    (analyzed : List (MergedRow × AnalysisRow)) : List FinalRow :=
  let positive := analyzed.filter (fun p => isPosVal p.2.bestBetValue)
  if ready.isEmpty then
    sorted.map (fun r =>
      { row := r, status := classifyStatus r, bestBetTeam := none, bestBetValue := none })
  else
    sorted.flatMap (mergeMatches positive)

/-- Embedding of `perform_baseball_analysis` from the merged rows onward
(MLB2025fork1.py lines 263-310): fill game labels, sort by timestamp,
classify, run the value computation on the `Ready for Analysis` subset,
keep the strictly-positive-value rows, left-merge their
`BestBetTeam`/`BestBetValue` back on the join key (or, when no row was
ready, add the two columns as all-NaN), and sort the result by timestamp.
A `ZeroDivisionError` raised by the odds conversion propagates. -/
def perform_analysis (merged : List MergedRow) : Except Unit (List FinalRow) :=
  let filled := merged.map fillGame
  let sorted := List.insertionSort mergedLe filled
  let ready := sorted.filter (fun r => decide (classifyStatus r = Status.readyForAnalysis))
  (ready.mapM (fun r => (analyzeRow r).map (fun ar => (r, ar)))).map
    (fun analyzed => List.insertionSort finalLe (buildFinalRows sorted ready analyzed))

/-! ## OddsRecordNormalizer

Embedding of the per-event processing of `scrape_sbri_data`
(MLB2025.py lines 90-144): build one `game_data` record from the event's
markets, then convert each odds column through `convert_to_american_odds`. -/

/-- One selection of a market in the SBRI JSON feed; `.get` on a missing
key yields `None`, hence every field is optional. -/
structure SbriSelection where
  name : Option String
  price : Option ℚ
  currenthandicap : Option ℚ
  currentmatchhandicap : Option ℚ
deriving DecidableEq

/-- One market of an SBRI event. -/
structure SbriMarket where
  name : Option String
  selections : List SbriSelection
deriving DecidableEq

/-- One event of the SBRI JSON feed (the `tsstart` instant is kept as its
raw text; it plays no role in the price invariant). -/
structure SbriEvent where
  sportname : Option String
  tsstart : Option String
  externaldescription : Option String
  shortnameaway : Option String
  shortnamehome : Option String
  markets : List SbriMarket
deriving DecidableEq

/-- The `game_data` dict built per event (MLB2025.py lines 92-106). -/
structure GameData where
  sport : Option String
  gameStart : Option String
  game : Option String
  awayTeam : Option String
  homeTeam : Option String
  awayMLOdds : Option ℚ
  homeMLOdds : Option ℚ
  homeSpread : Option ℚ
  awaySpreadOdds : Option ℚ
  homeSpreadOdds : Option ℚ
  underOdds : Option ℚ
  overOdds : Option ℚ
  handicap : Option ℚ
deriving DecidableEq

/-- The initial `game_data` with all price fields `None`. -/
def initGameData (event : SbriEvent) : GameData :=
  { sport := event.sportname, gameStart := event.tsstart
    game := event.externaldescription
    awayTeam := event.shortnameaway, homeTeam := event.shortnamehome
    awayMLOdds := none, homeMLOdds := none, homeSpread := none
    awaySpreadOdds := none, homeSpreadOdds := none, underOdds := none
    overOdds := none, handicap := none }

/-- One `Money Line` selection (lines 110-114): name matched against the
away team, then the home team (Python `==` treats `None == None` as a
match, so both sides are optional strings compared directly). -/
def moneyLineStep (g : GameData) (s : SbriSelection) : GameData :=
  if s.name = g.awayTeam then { g with awayMLOdds := s.price }
  else if s.name = g.homeTeam then { g with homeMLOdds := s.price }
  else g

/-- One `Run Line` selection (lines 116-121). -/
def runLineStep (g : GameData) (s : SbriSelection) : GameData :=
  if s.name = g.awayTeam then { g with awaySpreadOdds := s.price }
  else if s.name = g.homeTeam then
    { g with homeSpread := s.currenthandicap, homeSpreadOdds := s.price }
  else g

/-- One `Total Runs` selection (lines 123-128). -/
def totalRunsStep (g : GameData) (s : SbriSelection) : GameData :=
  if s.name = some "Over" then
    { g with overOdds := s.price, handicap := s.currentmatchhandicap }
  else if s.name = some "Under" then { g with underOdds := s.price }
  else g

/-- One market (lines 108-128): the three `if` tests are sequential, not
`elif`. -/
def processMarket (g : GameData) (m : SbriMarket) : GameData :=
  let g1 := if m.name = some "Money Line" then m.selections.foldl moneyLineStep g else g
  let g2 := if m.name = some "Run Line" then m.selections.foldl runLineStep g1 else g1
  if m.name = some "Total Runs" then m.selections.foldl totalRunsStep g2 else g2

/-- The whole per-event loop. -/
def processEvent (event : SbriEvent) : GameData :=
  event.markets.foldl processMarket (initGameData event)

/-- A numeric pandas cell fed to `convert_to_american_odds`
(`pd.to_numeric(..., errors='coerce')` leaves a numeric-or-NaN column). -/
def toPyNumCell (c : Option ℚ) : PyNum :=
  match c with
  | none => .nan
  | some q => .num q

/-- The conversion applied to each odds column (MLB2025.py lines 139-142). -/
def convertPriceCell (c : Option ℚ) : ConvResult :=
  convert_to_american_odds (toPyNumCell c)

/-- The six odds columns after conversion. -/
structure ConvertedPriceFields where
  awayMLOdds : ConvResult
  homeMLOdds : ConvResult
  homeSpreadOdds : ConvResult
  awaySpreadOdds : ConvResult
  overOdds : ConvResult
  underOdds : ConvResult
deriving DecidableEq

/-- The conversion loop over `odds_cols`. -/
def convertOddsColumns (g : GameData) : ConvertedPriceFields :=
  { awayMLOdds := convertPriceCell g.awayMLOdds
    homeMLOdds := convertPriceCell g.homeMLOdds
    homeSpreadOdds := convertPriceCell g.homeSpreadOdds
    awaySpreadOdds := convertPriceCell g.awaySpreadOdds
    overOdds := convertPriceCell g.overOdds
    underOdds := convertPriceCell g.underOdds }

/-- A source price cell that is either absent or a decimal odds value
strictly greater than 1. -/
def goodCell (c : Option ℚ) : Prop := ∀ p, c = some p → 1 < p

/-- The claimed invariant for one converted price field: absent, or an
American-odds value of magnitude at least 100 (in particular nonzero and
not a raw decimal-odds value). -/
def validAmericanOrAbsent (c : ConvResult) : Prop :=
  c = ConvResult.retNone ∨ ∃ a, c = ConvResult.value a ∧ 100 ≤ |a|

/-- All six odds fields of a `game_data` record are good source cells. -/
def goodPrices (g : GameData) : Prop :=
  goodCell g.awayMLOdds ∧ goodCell g.homeMLOdds ∧ goodCell g.homeSpreadOdds ∧
  goodCell g.awaySpreadOdds ∧ goodCell g.overOdds ∧ goodCell g.underOdds

/-! ## Concrete rows used by counterexamples and witnesses -/

/-- A joined row carrying home-side data only: the home moneyline and home
win probability are present while both away-side fields are absent. -/
def cRow : MergedRow :=
  { timestamp := 0, homeTeam := "H", awayTeam := "A"
    game := some "A @ H", teams := none
    homeMLOdds := some 100, awayMLOdds := none
    homeWinProb := some (1 / 2), awayWinProb := none }

/-- A fully-populated row whose home side has the strictly larger value:
home value `3/4 * 2 - 1 = 1/2`, away value `1/4 * 2 - 1 = -1/2`. -/
def posRow : MergedRow :=
  { timestamp := 5, homeTeam := "H", awayTeam := "A"
    game := some "A @ H", teams := some "A H"
    homeMLOdds := some 100, awayMLOdds := some 100
    homeWinProb := some (3 / 4), awayWinProb := some (1 / 4) }

/-- A fully-populated row with exactly tied values: both sides have
moneyline `+100` and win probability `1/2`, so both values are `0`. -/
def tieRow : MergedRow :=
  { timestamp := 7, homeTeam := "H", awayTeam := "A"
    game := some "A @ H", teams := some "A H"
    homeMLOdds := some 100, awayMLOdds := some 100
    homeWinProb := some (1 / 2), awayWinProb := some (1 / 2) }

/-- The analysis columns computed for `tieRow`: both values are `0`. -/
def tieAnalysis : AnalysisRow :=
  { homeDecimalOdds := some 2, awayDecimalOdds := some 2
    homeImpliedProb := some (1 / 2), awayImpliedProb := some (1 / 2)
    homeValue := some 0, awayValue := some 0
    bestBetTeam := "A", bestBetValue := some 0 }

/-- The row `tieRow` produces in the final output: carried, but with both
merged-back columns absent. -/
def tieFinalRow : FinalRow :=
  { row := tieRow, status := Status.readyForAnalysis
    bestBetTeam := none, bestBetValue := none }

/-- A concrete SBRI event with a Money Line market whose two selection
prices are the decimal odds 3 and 2. -/
def sampleEvent : SbriEvent :=
  { sportname := some "Baseball", tsstart := some "2025-07-04T17:05:00Z"
    externaldescription := some "A @ H"
    shortnameaway := some "A", shortnamehome := some "H"
    markets := [
      { name := some "Money Line"
        selections := [
          { name := some "A", price := some 3
            currenthandicap := none, currentmatchhandicap := none },
          { name := some "H", price := some 2
            currenthandicap := none, currentmatchhandicap := none } ] } ] }

/-! ## MultiPageTableCollector

Embedding of `scrape_dratings_data` (MLB2025.py lines 147-191): the
three-page loop, per-page table selection by the `Pitchers` column
signature, concatenation, and de-duplication on the `Teams` column.  A
page fetch (`session.get` / `raise_for_status`) failure raises
`requests.exceptions.RequestException`, which the loop catches, logs and
skips; an HTML-table parse failure (`pd.read_html` raising, e.g.
`ValueError` on a page with no tables) is not caught by the
`except requests.exceptions.RequestException` clause and propagates. -/

/-- One row of a scraped DRatings table: its `Teams` natural-key text and
the remaining cells, kept opaque. -/
structure DRow where
  teams : String
  payload : String
deriving DecidableEq

/-- One HTML table found on a page: whether `'Pitchers' in table.columns`,
and its rows. -/
structure DTable where
  hasPitchers : Bool
  rows : List DRow
deriving DecidableEq

/-- What fetching and parsing one page yields: a fetch failure (caught and
skipped), a parse failure inside `pd.read_html` (uncaught), or a list of
parsed tables. -/
inductive PageOutcome where
  | fetchError
  | parseError
  | ok (tables : List DTable)
deriving DecidableEq

/-- The log/report messages the collector emits. -/
inductive DrateLog where
  | foundTable (page : Nat)
  | noTable (page : Nat)
  | pageSkipped (page : Nat)
  | noData
deriving DecidableEq

/-- The page loop (lines 154-181): per page, on a fetch error log a skip
warning and continue; on a parse error the exception propagates; otherwise
keep the first table whose columns contain `Pitchers` (logging whether one
was found). -/
def drateLoop (pageNum : Nat) :
    List PageOutcome → Except Unit (List (List DRow) × List DrateLog)
  | [] => .ok ([], [])
  | page :: rest =>
    match page with
    | .fetchError =>
      (drateLoop (pageNum + 1) rest).map
        (fun (dfs, logs) => (dfs, .pageSkipped pageNum :: logs))
    | .parseError => .error ()
    | .ok tables =>
      match tables.find? (fun t => t.hasPitchers) with
      | some t =>
        (drateLoop (pageNum + 1) rest).map
          (fun (dfs, logs) => (t.rows :: dfs, .foundTable pageNum :: logs))
      | none =>
        (drateLoop (pageNum + 1) rest).map
          (fun (dfs, logs) => (dfs, .noTable pageNum :: logs))

/-- Embedding of `df.drop_duplicates(subset='Teams')`: keep the first occurrence of each
`Teams` key. -/
def dedupeByTeams (seen : List String) : List DRow → List DRow
  | [] => []
  | r :: rs =>
    if r.teams ∈ seen then dedupeByTeams seen rs
    else r :: dedupeByTeams (r.teams :: seen) rs

/-- The `drop_duplicates` pass starting from no seen keys. -/
def drop_duplicates_teams (rows : List DRow) : List DRow := dedupeByTeams [] rows

/-- The collector through line 191: run the page loop; if no page yielded a
qualifying table, report "no data" (`return None` after an error log);
otherwise concatenate the kept tables in page order and de-duplicate on
`Teams`, keeping first occurrences. -/
def scrape_dratings_core (pages : List PageOutcome) :
    Except Unit (Option (List DRow) × List DrateLog) :=
  match drateLoop 0 pages with
  | .error e => .error e
  | .ok (dfs, logs) =>
    if dfs.isEmpty then .ok (none, logs ++ [.noData])
    else .ok (some (drop_duplicates_teams dfs.flatten), logs)

/-- The production entry point fetches exactly the pages `0, 1, 2`
(`range(3)`, line 154). -/
def scrape_dratings_data (p0 p1 p2 : PageOutcome) :
    Except Unit (Option (List DRow) × List DrateLog) :=
  scrape_dratings_core [p0, p1, p2]

/-- A first sample page table carrying the `Pitchers` column. -/
def samplePage0 : DTable :=
  { hasPitchers := true, rows := [⟨"A B", "x"⟩, ⟨"C D", "y"⟩] }

/-- A second sample page table carrying the `Pitchers` column; its first
row repeats the `Teams` key `"C D"` of `samplePage0`. -/
def samplePage1 : DTable :=
  { hasPitchers := true, rows := [⟨"C D", "z"⟩, ⟨"E F", "w"⟩] }

/-! ## FixedWidthTableParser

Embedding of `scrape_tpt_data` (Football2025.py lines 256-338).  Text is
modelled as `List Char`.  The whole body runs inside a
`try ... except Exception` that logs and returns `None`, so every internal
parsing exception (e.g. pandas `EmptyDataError` on a data region with no
parseable lines) surfaces as the `none` outcome, never as a crash. -/

/-- Python `text.find(needle)` followed by taking the two sides of the first
occurrence: `some (before, after)` with
`text = before ++ needle ++ after`, or `none` when absent. -/
def splitFirst (sep : List Char) : List Char → Option (List Char × List Char)
  | [] => none
  | c :: cs =>
    if sep.isPrefixOf (c :: cs) then some ([], (c :: cs).drop sep.length)
    else
      match splitFirst sep cs with
      | some (b, a) => some (c :: b, a)
      | none => none

/-- Accumulator pass of `str.splitlines` over newline characters. -/
def splitLinesAux : List Char → List Char → List (List Char)
  | acc, [] => [acc.reverse]
  | acc, c :: cs =>
    if c = '\n' then acc.reverse :: splitLinesAux [] cs
    else splitLinesAux (c :: acc) cs

/-- Python `str.splitlines`: a trailing newline does not produce a final
empty line, and the empty string yields no lines. -/
def pySplitlines (s : List Char) : List (List Char) :=
  let ls := splitLinesAux [] s
  if ls.getLast? = some [] then ls.dropLast else ls

/-- Python `str.strip` on a character list. -/
def trimChars (s : List Char) : List Char :=
  ((s.dropWhile Char.isWhitespace).reverse.dropWhile Char.isWhitespace).reverse

/-- The `header_start = 'Home                Visitor'` phrase (line 279). -/
def headerPhrase : List Char := "Home                Visitor".data

/-- The `separator = '__________'` phrase (line 290). -/
def separatorPhrase : List Char := "__________".data

/-- The `TEAM_NAME_MAP` dict (Football2025.py lines 81-145): short or partial
franchise names mapped to canonical full names. -/
def TEAM_NAME_MAP : List (String × String) := [
  ("Arizona", "Arizona Cardinals"), ("Atlanta", "Atlanta Falcons"),
  ("Baltimore", "Baltimore Ravens"), ("Buffalo", "Buffalo Bills"),
  ("Carolina", "Carolina Panthers"), ("Chicago", "Chicago Bears"),
  ("Cincinnati", "Cincinnati Bengals"), ("Cleveland", "Cleveland Browns"),
  ("Dallas", "Dallas Cowboys"), ("Denver", "Denver Broncos"),
  ("Detroit", "Detroit Lions"), ("Green Bay", "Green Bay Packers"),
  ("Houston", "Houston Texans"), ("Indianapolis", "Indianapolis Colts"),
  ("Jacksonville", "Jacksonville Jaguars"), ("Kansas City", "Kansas City Chiefs"),
  ("Las Vegas", "Las Vegas Raiders"), ("LA Chargers", "Los Angeles Chargers"),
  ("LA Rams", "Los Angeles Rams"), ("Miami", "Miami Dolphins"),
  ("Minnesota", "Minnesota Vikings"), ("New England", "New England Patriots"),
  ("New Orleans", "New Orleans Saints"), ("N.Y. Giants", "New York Giants"),
  ("N.Y. Jets", "New York Jets"), ("Philadelphia", "Philadelphia Eagles"),
  ("Pittsburgh", "Pittsburgh Steelers"), ("San Francisco", "San Francisco 49ers"),
  ("Seattle", "Seattle Seahawks"), ("Tampa Bay", "Tampa Bay Buccaneers"),
  ("Tennessee", "Tennessee Titans"), ("Washington", "Washington Commanders"),
  ("Eagles", "Philadelphia Eagles"), ("Cowboys", "Dallas Cowboys"),
  ("Chargers", "Los Angeles Chargers"), ("Chiefs", "Kansas City Chiefs"),
  ("Colts", "Indianapolis Colts"), ("Dolphins", "Miami Dolphins"),
  ("Jets", "New York Jets"), ("Steelers", "Pittsburgh Steelers"),
  ("Giants", "New York Giants"), ("Falcons", "Atlanta Falcons"),
  ("Buccaneers", "Tampa Bay Buccaneers"), ("Saints", "New Orleans Saints"),
  ("Cardinals", "Arizona Cardinals"), ("Browns", "Cleveland Browns"),
  ("Bengals", "Cincinnati Bengals"), ("Jaguars", "Jacksonville Jaguars"),
  ("Panthers", "Carolina Panthers"), ("Patriots", "New England Patriots"),
  ("Raiders", "Las Vegas Raiders"), ("Broncos", "Denver Broncos"),
  ("Titans", "Tennessee Titans"), ("Seahawks", "Seattle Seahawks"),
  ("Niners", "San Francisco 49ers"), ("Rams", "Los Angeles Rams"),
  ("Texans", "Houston Texans"), ("Packers", "Green Bay Packers"),
  ("Lions", "Detroit Lions"), ("Bills", "Buffalo Bills"),
  ("Ravens", "Baltimore Ravens"), ("Bears", "Chicago Bears"),
  ("Vikings", "Minnesota Vikings")]

/-- Embedding of `pd.Series.replace(TEAM_NAME_MAP)`: exact-match lookup with
pass-through for unresolved names. -/
def resolveTeam (s : String) : String :=
  match TEAM_NAME_MAP.find? (fun p => p.1 == s) with
  | some p => p.2
  | none => s

/-- Python `str.strip` at the `String` level. -/
def pyStrip (s : String) : String := String.mk (trimChars s.data)

/-- One fixed-width cell: characters `[a, b)` of the line, stripped;
a whitespace-only field is NaN (`none`), per `pd.read_fwf`. -/
def sliceCell (l : List Char) (a b : Nat) : Option String :=
  let cell := String.mk (trimChars ((l.drop a).take (b - a)))
  if cell = "" then none else some cell

/-- One parsed row of the fixed-width table (the `col_names` of lines
311-315 plus the synthesized `Matchup`). -/
structure TptRow where
  home : Option String
  visitor : Option String
  openingLine : Option String
  updatedLine : Option String
  midweekLine : Option String
  predictionAvg : Option String
  predictionMedian : Option String
  predictionStdDev : Option String
  predictionMin : Option String
  predictionMax : Option String
  probabilityWins : Option String
  probabilityCovers : Option String
  matchup : Option String
deriving DecidableEq

/-- Parse one line with the `col_specs` character offsets of lines
296-309. -/
def parseTptLine (l : List Char) : TptRow :=
  { home := sliceCell l 0 19
    visitor := sliceCell l 19 39
    openingLine := sliceCell l 39 48
    updatedLine := sliceCell l 48 57
    midweekLine := sliceCell l 57 66
    predictionAvg := sliceCell l 66 78
    predictionMedian := sliceCell l 78 89
    predictionStdDev := sliceCell l 89 108
    predictionMin := sliceCell l 108 117
    predictionMax := sliceCell l 117 124
    probabilityWins := sliceCell l 124 136
    probabilityCovers := sliceCell l 136 146
    matchup := none }

/-- The `df.dropna(how='all')` test: every parsed column of the row is NaN. -/
def allNoneRow (r : TptRow) : Bool :=
  r.home.isNone && r.visitor.isNone && r.openingLine.isNone &&
  r.updatedLine.isNone && r.midweekLine.isNone && r.predictionAvg.isNone &&
  r.predictionMedian.isNone && r.predictionStdDev.isNone &&
  r.predictionMin.isNone && r.predictionMax.isNone &&
  r.probabilityWins.isNone && r.probabilityCovers.isNone

/-- Post-processing of lines 323-329: strip the two team columns, resolve
them through the name map, and synthesize `Matchup = Visitor at Home`
(NaN-propagating on the string columns). -/
def postTptRow (r : TptRow) : TptRow :=
  let home := (r.home.map pyStrip).map resolveTeam
  let visitor := (r.visitor.map pyStrip).map resolveTeam
  { r with
    home := home
    visitor := visitor
    matchup :=
      match visitor, home with
      | some v, some h => some (v ++ " at " ++ h)
      | _, _ => none }

/-- Lines 280-292: locate the header phrase (`None` when absent), drop the
header line and the one after it, and truncate at the separator when — and
only when — the separator occurs (`if separator in table_text`); otherwise
the remainder of the text is kept whole. -/
def tptTableText (fullText : List Char) : Option (List Char) :=
  match splitFirst headerPhrase fullText with
  | none => none
  | some (_, tailText) =>
    let fromHeader := headerPhrase ++ tailText
    let t := List.intercalate ['\n'] ((pySplitlines fromHeader).drop 2)
    some
      (match splitFirst separatorPhrase t with
       | some (before, _) => before
       | none => t)

/-- The lines `pd.read_fwf` will actually parse (blank lines are
skipped). -/
def nonBlankLines (t : List Char) : List (List Char) :=
  (pySplitlines t).filter (fun l => !(trimChars l).isEmpty)

/-- Lines 318-331: fixed-width parse of the isolated table text, drop
all-NaN rows, post-process.  A table text with no parseable lines raises
`EmptyDataError` inside pandas, which the function's `except Exception`
converts to the `None` outcome. -/
def parseTableText (t : List Char) : Option (List TptRow) :=
  let lines := nonBlankLines t
  if lines.isEmpty then none
  else some (((lines.map parseTptLine).filter (fun r => !(allNoneRow r))).map postTptRow)

/-- The input document: the text of its first `<pre>` tag, when one
exists. -/
structure TptDoc where
  pre : Option (List Char)
deriving DecidableEq

/-- Embedding of `scrape_tpt_data` (lines 256-338): `None` when there is no
`<pre>` tag or no header phrase; otherwise the fixed-width parse of the
isolated table text. -/
def scrape_tpt_data (doc : TptDoc) : Option (List TptRow) :=
  match doc.pre with
  | none => none
  | some fullText =>
    match tptTableText fullText with
    | none => none
    | some t => parseTableText t

/-- A sample document whose table region contains one data line and no
separator phrase. -/
def sampleTptText : List Char :=
  headerPhrase ++ "\n-----\nBuffalo             New England         -3.0".data

/-! ## Theorems -/

theorem convert_american_to_decimal_num {a : ℚ} (h : a ≠ 0) :
    convert_american_to_decimal (.num a) = .value (amDecVal a) := by
  unfold convert_american_to_decimal amDecVal
  rcases lt_trichotomy a 0 with hlt | heq | hgt
  · simp [not_lt.mpr hlt.le, hlt.ne, h]
  · exact absurd heq h
  · simp [hgt]

/-- C4 (counterexample): the claim states that for every `d` with
`1.0 <= d < 2.0` the converter returns `-100/(d - 1)`.  At the included
endpoint `d = 1.0` the code instead raises `ZeroDivisionError` and returns
no value at all. -/
theorem C4_counterexample :
    convert_to_american_odds (.num 1) = ConvResult.raise ∧
      convert_to_american_odds (.num 1) ≠ ConvResult.value (-100 / (1 - 1)) := by
  constructor
  · unfold convert_to_american_odds
    norm_num
  · intro h
    unfold convert_to_american_odds at h
    norm_num at h
    exact ConvResult.noConfusion h

/-- C4 (amended): `convert_to_american_odds` returns no value when its
input is not a real number or is NaN; for every `d >= 2.0` it returns
`(d*100) - 100`; for every `d` with `1.0 < d < 2.0` it returns
`-100/(d - 1)`; at exactly `d = 1.0` the division raises instead of
returning; and the boundary value `d = 2.0` takes the positive branch
without any special case. -/
theorem C4_decimal_to_american :
    convert_to_american_odds .nan = ConvResult.retNone ∧
    convert_to_american_odds .notNumber = ConvResult.retNone ∧
    (∀ d : ℚ, 2 ≤ d →
      convert_to_american_odds (.num d) = ConvResult.value (d * 100 - 100)) ∧
    (∀ d : ℚ, 1 < d → d < 2 →
      convert_to_american_odds (.num d) = ConvResult.value (-100 / (d - 1))) ∧
    convert_to_american_odds (.num 1) = ConvResult.raise ∧
    convert_to_american_odds (.num 2) = ConvResult.value (2 * 100 - 100) := by
  refine ⟨rfl, rfl, ?_, ?_, ?_, ?_⟩
  · intro d hd
    unfold convert_to_american_odds
    simp [hd]
  · intro d h1 h2
    unfold convert_to_american_odds
    simp [not_le.mpr h2, ne_of_gt h1]
  · unfold convert_to_american_odds
    norm_num
  · unfold convert_to_american_odds
    norm_num

/-- Witness for C4: concrete inputs discharging each hypothesis of the
amended theorem (`d = 3` for the positive branch, `d = 3/2` for the
negative branch). -/
theorem C4_witness :
    convert_to_american_odds (.num 3) = ConvResult.value (3 * 100 - 100) ∧
      convert_to_american_odds (.num (3 / 2)) =
        ConvResult.value (-100 / (3 / 2 - 1)) :=
  ⟨C4_decimal_to_american.2.2.1 3 (by norm_num),
   C4_decimal_to_american.2.2.2.1 (3 / 2) (by norm_num) (by norm_num)⟩

/-- C5: for every decimal odds `d` with `2.0 <= d <= 100`,
`decimalToAmerican(d) = (d*100) - 100` and
`americanToDecimal(decimalToAmerican(d)) = d` — the round trip is exact in
rational arithmetic, hence certainly within floating tolerance. -/
theorem C5_round_trip (d : ℚ) (h2 : 2 ≤ d) (h100 : d ≤ 100) :
    convert_to_american_odds (.num d) = ConvResult.value (d * 100 - 100) ∧
      convert_american_to_decimal (.num (d * 100 - 100)) = DecResult.value d := by
  constructor
  · unfold convert_to_american_odds
    simp [h2]
  · have hpos : (0 : ℚ) < d * 100 - 100 := by nlinarith
    simp only [convert_american_to_decimal]
    rw [if_pos hpos]
    congr 1
    field_simp

/-- Witness for C5 at the concrete decimal odds `d = 3`. -/
theorem C5_witness :
    convert_to_american_odds (.num 3) = ConvResult.value (3 * 100 - 100) ∧
      convert_american_to_decimal (.num (3 * 100 - 100)) = DecResult.value 3 :=
  C5_round_trip 3 (by norm_num) (by norm_num)

/-- C1 (counterexample): the claim requires `ReadyForAnalysis` exactly when
a moneyline price and a win probability are present on *both* the home and
away side.  The code classifies `cRow` as `Ready for Analysis` although its
away moneyline and away win probability are both absent. -/
theorem C1_counterexample :
    classifyStatus cRow = Status.readyForAnalysis ∧
      ¬(cRow.awayMLOdds.isSome ∧ cRow.awayWinProb.isSome) := by
  constructor
  · simp [classifyStatus, cRow]
  · simp [cRow]

/-- C1 (amended): the classification consults only the home-side fields,
in priority order with the first matching condition winning:
`ReadyForAnalysis` if the home moneyline and the home win probability are
both present; `MissingOdds` if the home moneyline is absent;
`MissingPrediction` if the home win probability is absent (with the home
moneyline present); the default `Unknown` is unreachable. -/
theorem C1_status_classification (r : MergedRow) :
    (classifyStatus r = Status.readyForAnalysis ↔
        r.homeMLOdds.isSome ∧ r.homeWinProb.isSome) ∧
    (classifyStatus r = Status.missingOdds ↔ r.homeMLOdds = none) ∧
    (classifyStatus r = Status.missingPrediction ↔
        r.homeMLOdds.isSome ∧ r.homeWinProb = none) ∧
    classifyStatus r ≠ Status.unknown := by
  rcases hm : r.homeMLOdds with _ | q <;> rcases hp : r.homeWinProb with _ | p <;>
    simp [classifyStatus, hm, hp]

/-- Shared evaluation lemma: `analyzeRow` on a row whose four analysis
inputs are all present (with nonzero moneylines, so no `ZeroDivisionError`)
computes exactly the columns of MLB2025fork1.py lines 283-296. -/
theorem analyzeRow_eq (r : MergedRow) (hm am hp ap : ℚ)
    (hhm : r.homeMLOdds = some hm) (hhm0 : hm ≠ 0)
    (ham : r.awayMLOdds = some am) (ham0 : am ≠ 0)
    (hhp : r.homeWinProb = some hp) (hap : r.awayWinProb = some ap) :
    analyzeRow r = Except.ok
      { homeDecimalOdds := some (amDecVal hm)
        awayDecimalOdds := some (amDecVal am)
        homeImpliedProb := some (1 / amDecVal hm)
        awayImpliedProb := some (1 / amDecVal am)
        homeValue := some (hp * amDecVal hm - 1)
        awayValue := some (ap * amDecVal am - 1)
        bestBetTeam :=
          if ap * amDecVal am - 1 < hp * amDecVal hm - 1 then r.homeTeam else r.awayTeam
        bestBetValue := some (max (hp * amDecVal hm - 1) (ap * amDecVal am - 1)) } := by
  unfold analyzeRow
  rw [hhm, ham, hhp, hap]
  simp [toAmInput, convert_american_to_decimal_num hhm0,
    convert_american_to_decimal_num ham0, decToExcept, cellValue, cellInv,
    cellGT, cellMax, Bind.bind, Except.bind, pure, Except.pure]

/-- C3 (counterexample): `cRow` is classified `Ready for Analysis` by the
code, yet its away-side inputs are absent: the away value is NaN,
`BestBetTeam` falls to the away team (the NumPy comparison with NaN is
false) even though only the home side has a value at all, and
`BestBetValue` is NaN rather than "the strictly larger value". -/
theorem C3_counterexample :
    classifyStatus cRow = Status.readyForAnalysis ∧
      analyzeRow cRow = Except.ok
        { homeDecimalOdds := some 2, awayDecimalOdds := none
          homeImpliedProb := some (1 / 2), awayImpliedProb := none
          homeValue := some 0, awayValue := none
          bestBetTeam := "A", bestBetValue := none } := by
  constructor
  · simp [classifyStatus, cRow]
  · unfold analyzeRow
    simp only [cRow]
    norm_num [toAmInput, convert_american_to_decimal, decToExcept,
      cellValue, cellInv, cellGT, cellMax, Bind.bind, Except.bind, pure, Except.pure]

/-- C3 (amended): for every row classified `ReadyForAnalysis` in which
both sides' moneylines and win probabilities are in fact present (and the
moneylines nonzero), the engine converts each side's American moneyline to
decimal odds, sets `impliedProbability = 1/decimalOdds` and
`value = predictedWinProbability * decimalOdds - 1` per side, picks the
home side exactly when its value is strictly larger and the away side
otherwise, and sets `bestBetValue = max(homeValue, awayValue)`; in
particular whenever one side's value is strictly larger, that side is the
best bet and `bestBetValue` equals its value. -/
theorem C3_value_computation (r : MergedRow) (hm am hp ap : ℚ)
    (hhm : r.homeMLOdds = some hm) (hhm0 : hm ≠ 0)
    (ham : r.awayMLOdds = some am) (ham0 : am ≠ 0)
    (hhp : r.homeWinProb = some hp) (hap : r.awayWinProb = some ap) :
    ∃ ar, analyzeRow r = Except.ok ar ∧
      ar.homeDecimalOdds = some (amDecVal hm) ∧
      ar.awayDecimalOdds = some (amDecVal am) ∧
      ar.homeImpliedProb = some (1 / amDecVal hm) ∧
      ar.awayImpliedProb = some (1 / amDecVal am) ∧
      ar.homeValue = some (hp * amDecVal hm - 1) ∧
      ar.awayValue = some (ap * amDecVal am - 1) ∧
      ar.bestBetValue = some (max (hp * amDecVal hm - 1) (ap * amDecVal am - 1)) ∧
      (ap * amDecVal am - 1 < hp * amDecVal hm - 1 →
        ar.bestBetTeam = r.homeTeam ∧ ar.bestBetValue = some (hp * amDecVal hm - 1)) ∧
      (hp * amDecVal hm - 1 < ap * amDecVal am - 1 →
        ar.bestBetTeam = r.awayTeam ∧ ar.bestBetValue = some (ap * amDecVal am - 1)) := by
  refine ⟨_, analyzeRow_eq r hm am hp ap hhm hhm0 ham ham0 hhp hap, rfl, rfl, rfl, rfl,
    rfl, rfl, rfl, ?_, ?_⟩
  · intro hlt
    constructor
    · rw [if_pos hlt]
    · simp [max_eq_left hlt.le]
  · intro hlt
    constructor
    · rw [if_neg (not_lt.mpr hlt.le)]
    · simp [max_eq_right hlt.le]

/-- Witness for C3 at `posRow`. -/
theorem C3_witness :
    ∃ ar, analyzeRow posRow = Except.ok ar ∧
      ar.homeDecimalOdds = some (amDecVal 100) ∧
      ar.awayDecimalOdds = some (amDecVal 100) ∧
      ar.homeImpliedProb = some (1 / amDecVal 100) ∧
      ar.awayImpliedProb = some (1 / amDecVal 100) ∧
      ar.homeValue = some (3 / 4 * amDecVal 100 - 1) ∧
      ar.awayValue = some (1 / 4 * amDecVal 100 - 1) ∧
      ar.bestBetValue =
        some (max (3 / 4 * amDecVal 100 - 1) (1 / 4 * amDecVal 100 - 1)) ∧
      (1 / 4 * amDecVal 100 - 1 < 3 / 4 * amDecVal 100 - 1 →
        ar.bestBetTeam = posRow.homeTeam ∧
          ar.bestBetValue = some (3 / 4 * amDecVal 100 - 1)) ∧
      (3 / 4 * amDecVal 100 - 1 < 1 / 4 * amDecVal 100 - 1 →
        ar.bestBetTeam = posRow.awayTeam ∧
          ar.bestBetValue = some (1 / 4 * amDecVal 100 - 1)) :=
  C3_value_computation posRow 100 100 (3 / 4) (1 / 4) rfl (by norm_num) rfl
    (by norm_num) rfl rfl

/-- C10: when the two sides' values are exactly equal, `np.where` takes its
false branch, so `BestBetTeam` is the away team and `BestBetValue` is the
shared value. -/
theorem C10_tie_breaks_to_away (r : MergedRow) (hm am hp ap : ℚ)
    (hhm : r.homeMLOdds = some hm) (hhm0 : hm ≠ 0)
    (ham : r.awayMLOdds = some am) (ham0 : am ≠ 0)
    (hhp : r.homeWinProb = some hp) (hap : r.awayWinProb = some ap)
    (htie : hp * amDecVal hm - 1 = ap * amDecVal am - 1) :
    ∃ ar, analyzeRow r = Except.ok ar ∧ ar.bestBetTeam = r.awayTeam ∧
      ar.bestBetValue = some (hp * amDecVal hm - 1) := by
  refine ⟨_, analyzeRow_eq r hm am hp ap hhm hhm0 ham ham0 hhp hap, ?_, ?_⟩
  · simp [htie]
  · simp [htie]

/-- Witness for C10 at `tieRow`. -/
theorem C10_witness :
    ∃ ar, analyzeRow tieRow = Except.ok ar ∧ ar.bestBetTeam = tieRow.awayTeam ∧
      ar.bestBetValue = some (1 / 2 * amDecVal 100 - 1) :=
  C10_tie_breaks_to_away tieRow 100 100 (1 / 2) (1 / 2) rfl (by norm_num) rfl
    (by norm_num) rfl rfl rfl

theorem mergeMatches_value (positive : List (MergedRow × AnalysisRow)) (r : MergedRow) :
    ∀ fr ∈ mergeMatches positive r, fr.bestBetValue = none ∨
      ∃ p ∈ positive, fr.bestBetValue = p.2.bestBetValue := by
  intro fr hfr
  unfold mergeMatches at hfr
  by_cases he : (positive.filter (fun p => decide (keyOf p.1 = keyOf r))).isEmpty
  · rw [if_pos he, List.mem_singleton] at hfr
    exact Or.inl (by rw [hfr])
  · rw [if_neg he] at hfr
    obtain ⟨p, hp, hfr'⟩ := List.mem_map.mp hfr
    exact Or.inr ⟨p, (List.mem_filter.mp hp).1, by rw [← hfr']⟩

theorem mergeMatches_map_row_single (positive : List (MergedRow × AnalysisRow))
    (r : MergedRow)
    (h : (positive.filter (fun p => decide (keyOf p.1 = keyOf r))).length ≤ 1) :
    (mergeMatches positive r).map FinalRow.row = [r] := by
  unfold mergeMatches
  rcases hh : positive.filter (fun p => decide (keyOf p.1 = keyOf r)) with _ | ⟨p, ps⟩
  · rw [hh]
    rfl
  · rw [hh] at h ⊢
    have hps : ps = [] := by
      rcases ps with _ | _
      · rfl
      · simp at h
    subst hps
    rfl

theorem filter_key_length_le_one (pos : List (MergedRow × AnalysisRow))
    (hp : (pos.map Prod.fst).Pairwise (fun a b => keyOf a ≠ keyOf b))
    (k : ℤ × String × String) :
    (pos.filter (fun p => decide (keyOf p.1 = k))).length ≤ 1 := by
  induction pos with
  | nil => simp
  | cons p ps ih =>
    rw [List.map_cons, List.pairwise_cons] at hp
    obtain ⟨hhead, htail⟩ := hp
    by_cases hk : keyOf p.1 = k
    · have hnone : ps.filter (fun q => decide (keyOf q.1 = k)) = [] := by
        rw [List.filter_eq_nil_iff]
        intro q hq
        simp only [decide_eq_true_eq]
        intro hqk
        exact hhead q.1 (List.mem_map_of_mem Prod.fst hq) (by rw [hk, hqk])
      simp [List.filter_cons, hk, hnone]
    · simp only [List.filter_cons, decide_eq_true_eq, hk, if_neg, ite_false]
      exact ih htail

theorem mapM_pair_fst :
    ∀ (l : List MergedRow) (res : List (MergedRow × AnalysisRow)),
      List.mapM (fun r => Except.map (fun ar => (r, ar)) (analyzeRow r)) l =
        Except.ok res →
      res.map Prod.fst = l := by
  intro l
  induction l with
  | nil =>
    intro res h
    simp only [List.mapM_nil, pure, Except.pure, Except.ok.injEq] at h
    rw [← h]
    rfl
  | cons a as ih =>
    intro res h
    rw [List.mapM_cons] at h
    cases hA : analyzeRow a with
    | error e =>
      rw [hA] at h
      simp [Except.map, Bind.bind, Except.bind] at h
    | ok ar =>
      rw [hA] at h
      cases hAs : List.mapM (fun r => Except.map (fun ar => (r, ar)) (analyzeRow r)) as with
      | error e =>
        rw [hAs] at h
        simp [Except.map, Bind.bind, Except.bind] at h
      | ok bs =>
        rw [hAs] at h
        simp only [Except.map, Bind.bind, Except.bind, pure, Except.pure,
          Except.ok.injEq] at h
        rw [← h, List.map_cons, ih bs hAs]

theorem buildFinalRows_map_row (sorted ready : List MergedRow)
    (analyzed : List (MergedRow × AnalysisRow))
    (hkeys : ∀ r : MergedRow,
      ((analyzed.filter (fun p => isPosVal p.2.bestBetValue)).filter
        (fun p => decide (keyOf p.1 = keyOf r))).length ≤ 1) :
    (buildFinalRows sorted ready analyzed).map FinalRow.row = sorted := by
  unfold buildFinalRows
  by_cases hr : ready.isEmpty
  · rw [if_pos hr, List.map_map]
    have hcomp : (FinalRow.row ∘ fun r =>
        ({ row := r, status := classifyStatus r, bestBetTeam := none,
           bestBetValue := none } : FinalRow)) = id := funext fun r => rfl
    rw [hcomp, List.map_id]
  · rw [if_neg hr, List.map_flatMap]
    have hcomp : (fun r => (mergeMatches
        (analyzed.filter fun p => isPosVal p.2.bestBetValue) r).map FinalRow.row)
        = fun r => [r] :=
      funext fun r => mergeMatches_map_row_single _ r (hkeys r)
    rw [hcomp, List.flatMap_singleton']

theorem except_map_ok {α β : Type} {e : Except Unit α} {g : α → β} {b : β}
    (h : e.map g = Except.ok b) : ∃ a, e = Except.ok a ∧ b = g a := by
  cases e with
  | error err => simp [Except.map] at h
  | ok a => exact ⟨a, rfl, by simpa [Except.map] using h.symm⟩

/-- C2 (amended): assume the joined rows' `(Timestamp, HomeTeam, AwayTeam)`
join keys are pairwise distinct — the claim's own premise that "the join
key already disambiguates same-timestamp games by team" (with duplicate
keys the pandas left merge of line 302 would instead duplicate a row once
per matching positive-value row).  Then, whenever the analysis returns (no
`ZeroDivisionError`), its output consists of exactly the joined rows (with
missing game labels filled from the prediction-side `Teams` text), sorted
by timestamp ascending; but a row whose best value is not strictly
positive is carried with its `BestBetTeam`/`BestBetValue` fields *absent*
— the strictly positive filter decides which rows receive value fields in
the output, rather than removing rows. -/
theorem C2_output_carries_all_rows (merged : List MergedRow) (out : List FinalRow)
    (hkeys : merged.Pairwise (fun a b => keyOf a ≠ keyOf b))
    (h : perform_analysis merged = Except.ok out) :
    List.Perm (out.map FinalRow.row) (merged.map fillGame) ∧
    List.Sorted finalLe out ∧
    ∀ fr ∈ out, fr.bestBetValue = none ∨ ∃ v, fr.bestBetValue = some v ∧ 0 < v := by
  unfold perform_analysis at h
  obtain ⟨analyzed, hmapm, hout⟩ := except_map_ok h
  subst hout
  have hfilled : (merged.map fillGame).Pairwise (fun a b => keyOf a ≠ keyOf b) :=
    hkeys.map fillGame (fun a b hne => hne)
  have hsorted : (List.insertionSort mergedLe (merged.map fillGame)).Pairwise
      (fun a b => keyOf a ≠ keyOf b) :=
    ((List.perm_insertionSort mergedLe _).pairwise_iff (fun h => Ne.symm h)).mpr hfilled
  have hready : ((List.insertionSort mergedLe (merged.map fillGame)).filter
      (fun r => decide (classifyStatus r = Status.readyForAnalysis))).Pairwise
      (fun a b => keyOf a ≠ keyOf b) :=
    hsorted.sublist (List.filter_sublist _)
  have hfst : analyzed.map Prod.fst =
      (List.insertionSort mergedLe (merged.map fillGame)).filter
        (fun r => decide (classifyStatus r = Status.readyForAnalysis)) :=
    mapM_pair_fst _ analyzed hmapm
  have hposkeys : ((analyzed.filter (fun p => isPosVal p.2.bestBetValue)).map
      Prod.fst).Pairwise (fun a b => keyOf a ≠ keyOf b) := by
    refine List.Pairwise.sublist ?_ (hfst ▸ hready : (analyzed.map Prod.fst).Pairwise _)
    exact (List.filter_sublist analyzed).map Prod.fst
  have hbound : ∀ r : MergedRow,
      ((analyzed.filter (fun p => isPosVal p.2.bestBetValue)).filter
        (fun p => decide (keyOf p.1 = keyOf r))).length ≤ 1 :=
    fun r => filter_key_length_le_one _ hposkeys (keyOf r)
  refine ⟨?_, List.sorted_insertionSort _ _, ?_⟩
  · refine ((List.perm_insertionSort _ _).map _).trans ?_
    rw [buildFinalRows_map_row _ _ _ hbound]
    exact List.perm_insertionSort _ _
  · intro fr hfr
    have hmem : fr ∈ buildFinalRows (List.insertionSort mergedLe (merged.map fillGame))
        ((List.insertionSort mergedLe (merged.map fillGame)).filter
          (fun r => decide (classifyStatus r = Status.readyForAnalysis))) analyzed :=
      (List.perm_insertionSort finalLe _).mem_iff.mp hfr
    unfold buildFinalRows at hmem
    by_cases hr : ((List.insertionSort mergedLe (merged.map fillGame)).filter
        (fun r => decide (classifyStatus r = Status.readyForAnalysis))).isEmpty
    · rw [if_pos hr] at hmem
      obtain ⟨r, -, hfr'⟩ := List.mem_map.mp hmem
      exact Or.inl (by rw [← hfr'])
    · rw [if_neg hr] at hmem
      obtain ⟨r, -, hfr'⟩ := List.mem_flatMap.mp hmem
      rcases mergeMatches_value (analyzed.filter fun p => isPosVal p.2.bestBetValue) r
        fr hfr' with hnone | ⟨p, hp, hval⟩
      · exact Or.inl hnone
      · have hpos : isPosVal p.2.bestBetValue = true := (List.mem_filter.mp hp).2
        rcases hbv : p.2.bestBetValue with _ | v
        · rw [hbv] at hpos
          exact absurd hpos (by simp [isPosVal])
        · rw [hbv] at hpos hval
          refine Or.inr ⟨v, hval, ?_⟩
          have := of_decide_eq_true (by simpa [isPosVal] using hpos)
          exact this

theorem analyzeRow_tieRow : analyzeRow tieRow = Except.ok tieAnalysis := by
  rw [analyzeRow_eq tieRow 100 100 (1 / 2) (1 / 2) rfl (by norm_num) rfl (by norm_num)
    rfl rfl]
  have hAD : amDecVal 100 = 2 := by norm_num [amDecVal]
  norm_num [hAD, tieRow, tieAnalysis]

theorem perform_analysis_tieRow :
    perform_analysis [tieRow] = Except.ok [tieFinalRow] := by
  have hcls : classifyStatus tieRow = Status.readyForAnalysis := by
    simp [classifyStatus, tieRow]
  simp only [perform_analysis]
  have h1 : List.map fillGame [tieRow] = [tieRow] := rfl
  have h2 : List.insertionSort mergedLe [tieRow] = [tieRow] := rfl
  have h3 : List.filter (fun r => decide (classifyStatus r = Status.readyForAnalysis)) [tieRow]
      = [tieRow] := by simp [hcls]
  rw [h1, h2, h3]
  have h4 : List.mapM (fun r => Except.map (fun ar => (r, ar)) (analyzeRow r)) [tieRow]
      = Except.ok [(tieRow, tieAnalysis)] := by
    simp [List.mapM, List.mapM.loop, analyzeRow_tieRow, Except.map, seq_eq_bind,
      Bind.bind, Except.bind, pure, Except.pure]
  rw [h4]
  have hposv : isPosVal tieAnalysis.bestBetValue = false := by
    simp [isPosVal, tieAnalysis]
  simp [Except.map, buildFinalRows, mergeMatches, hposv, hcls, List.insertionSort,
    List.orderedInsert, tieFinalRow]

/-- C2 (counterexample): `tieRow` is classified `Ready for Analysis` and
has `BestBetValue = 0`, which is not strictly positive; the claim says such
a row is still carried with a `bestBetValue <= 0`, but in the actual output
the row is carried with its `BestBetTeam`/`BestBetValue` fields absent —
the positive-value filter removed its value fields from the output. -/
theorem C2_counterexample :
    classifyStatus tieRow = Status.readyForAnalysis ∧
    analyzeRow tieRow = Except.ok tieAnalysis ∧
    tieAnalysis.bestBetValue = some 0 ∧ ¬(0 : ℚ) > 0 ∧
    perform_analysis [tieRow] = Except.ok [tieFinalRow] ∧
    tieFinalRow.bestBetValue = none := by
  refine ⟨by simp [classifyStatus, tieRow], analyzeRow_tieRow, rfl, by norm_num,
    perform_analysis_tieRow, rfl⟩

/-- Witness for C2 at the one-row input `[tieRow]`. -/
theorem C2_witness :
    List.Perm ([tieFinalRow].map FinalRow.row) ([tieRow].map fillGame) ∧
    List.Sorted finalLe [tieFinalRow] ∧
    ∀ fr ∈ [tieFinalRow], fr.bestBetValue = none ∨
      ∃ v, fr.bestBetValue = some v ∧ 0 < v :=
  C2_output_carries_all_rows [tieRow] [tieFinalRow] (List.pairwise_singleton _ _)
    perform_analysis_tieRow

/-- C6: `convert_american_to_decimal` applied to `a = 0` raises
(`ZeroDivisionError` from `100/abs(0)`, not caught by the function's
`except` clause) — an error is flagged rather than an infinite decimal
odds value being silently returned. -/
theorem C6_zero_american_odds_raises :
    convert_american_to_decimal (.num 0) = DecResult.raise := by
  unfold convert_american_to_decimal
  norm_num

theorem convertPriceCell_good {c : Option ℚ} (h : goodCell c) :
    validAmericanOrAbsent (convertPriceCell c) := by
  rcases c with _ | p
  · exact Or.inl rfl
  · have hp : 1 < p := h p rfl
    simp only [convertPriceCell, toPyNumCell, convert_to_american_odds]
    by_cases h2 : 2 ≤ p
    · rw [if_pos h2]
      refine Or.inr ⟨p * 100 - 100, rfl, ?_⟩
      rw [abs_of_nonneg (by linarith)]
      linarith
    · rw [if_neg h2, if_neg (by intro h1; rw [h1] at hp; exact lt_irrefl 1 hp)]
      refine Or.inr ⟨-100 / (p - 1), rfl, ?_⟩
      have hd : (0 : ℚ) < p - 1 := by linarith
      have habs : |(-100 : ℚ) / (p - 1)| = 100 / (p - 1) := by
        rw [abs_div, abs_of_pos hd]
        norm_num
      rw [habs, le_div_iff₀ hd]
      nlinarith [not_le.mp h2]

theorem foldl_preserves {α β : Type} (P : β → Prop) (Q : α → Prop) (f : β → α → β)
    (hstep : ∀ b a, P b → Q a → P (f b a)) :
    ∀ l : List α, (∀ a ∈ l, Q a) → ∀ b, P b → P (l.foldl f b) := by
  intro l
  induction l with
  | nil => intro _ b hb; exact hb
  | cons a as ih =>
    intro hQ b hb
    exact ih (fun x hx => hQ x (List.mem_cons_of_mem a hx))
      (f b a) (hstep b a hb (hQ a (List.mem_cons_self a as)))

theorem moneyLineStep_good (g : GameData) (s : SbriSelection)
    (hg : goodPrices g) (hs : goodCell s.price) : goodPrices (moneyLineStep g s) := by
  obtain ⟨h1, h2, h3, h4, h5, h6⟩ := hg
  unfold moneyLineStep
  split_ifs <;> exact ⟨by assumption, by assumption, h3, h4, h5, h6⟩

theorem runLineStep_good (g : GameData) (s : SbriSelection)
    (hg : goodPrices g) (hs : goodCell s.price) : goodPrices (runLineStep g s) := by
  obtain ⟨h1, h2, h3, h4, h5, h6⟩ := hg
  unfold runLineStep
  split_ifs <;> exact ⟨h1, h2, by assumption, by assumption, h5, h6⟩

theorem totalRunsStep_good (g : GameData) (s : SbriSelection)
    (hg : goodPrices g) (hs : goodCell s.price) : goodPrices (totalRunsStep g s) := by
  obtain ⟨h1, h2, h3, h4, h5, h6⟩ := hg
  unfold totalRunsStep
  split_ifs <;> exact ⟨h1, h2, h3, h4, by assumption, by assumption⟩

theorem processMarket_good (g : GameData) (m : SbriMarket)
    (hg : goodPrices g) (hm : ∀ s ∈ m.selections, goodCell s.price) :
    goodPrices (processMarket g m) := by
  unfold processMarket
  have hif : ∀ (c : Prop) (inst : Decidable c) (step : GameData → SbriSelection → GameData),
      (∀ b a, goodPrices b → goodCell a.price → goodPrices (step b a)) →
      ∀ g' : GameData, goodPrices g' →
        goodPrices (@ite _ c inst (m.selections.foldl step g') g') := by
    intro c inst step hstep g' hg'
    split_ifs
    · exact foldl_preserves goodPrices (fun s => goodCell s.price) step hstep
        m.selections hm g' hg'
    · exact hg'
  exact hif _ _ _ totalRunsStep_good _
    (hif _ _ _ runLineStep_good _ (hif _ _ _ moneyLineStep_good g hg))

/-- C7: for every source event whose market selection prices are all
decimal odds strictly greater than 1 (or absent), every one of the six
converted price fields of the normalized record is either absent or a
valid American-odds value of magnitude at least 100 — never a raw decimal
value and never zero. -/
theorem C7_price_fields_valid (event : SbriEvent)
    (h : ∀ m ∈ event.markets, ∀ s ∈ m.selections, ∀ p, s.price = some p → 1 < p) :
    validAmericanOrAbsent (convertOddsColumns (processEvent event)).awayMLOdds ∧
    validAmericanOrAbsent (convertOddsColumns (processEvent event)).homeMLOdds ∧
    validAmericanOrAbsent (convertOddsColumns (processEvent event)).homeSpreadOdds ∧
    validAmericanOrAbsent (convertOddsColumns (processEvent event)).awaySpreadOdds ∧
    validAmericanOrAbsent (convertOddsColumns (processEvent event)).overOdds ∧
    validAmericanOrAbsent (convertOddsColumns (processEvent event)).underOdds := by
  have hinit : goodPrices (initGameData event) := by
    refine ⟨?_, ?_, ?_, ?_, ?_, ?_⟩ <;> · intro p hp; exact absurd hp (by simp [initGameData])
  have hall : goodPrices (processEvent event) :=
    foldl_preserves goodPrices (fun m => ∀ s ∈ m.selections, goodCell s.price)
      processMarket processMarket_good event.markets
      (fun m hm s hs p hp => h m hm s hs p hp) (initGameData event) hinit
  obtain ⟨h1, h2, h3, h4, h5, h6⟩ := hall
  exact ⟨convertPriceCell_good h1, convertPriceCell_good h2, convertPriceCell_good h3,
    convertPriceCell_good h4, convertPriceCell_good h5, convertPriceCell_good h6⟩

/-- Witness for C7 at `sampleEvent`. -/
theorem C7_witness :
    validAmericanOrAbsent (convertOddsColumns (processEvent sampleEvent)).awayMLOdds ∧
    validAmericanOrAbsent (convertOddsColumns (processEvent sampleEvent)).homeMLOdds ∧
    validAmericanOrAbsent (convertOddsColumns (processEvent sampleEvent)).homeSpreadOdds ∧
    validAmericanOrAbsent (convertOddsColumns (processEvent sampleEvent)).awaySpreadOdds ∧
    validAmericanOrAbsent (convertOddsColumns (processEvent sampleEvent)).overOdds ∧
    validAmericanOrAbsent (convertOddsColumns (processEvent sampleEvent)).underOdds := by
  refine C7_price_fields_valid sampleEvent ?_
  intro m hm s hs p hp
  simp only [sampleEvent, List.mem_singleton] at hm
  subst hm
  simp only [List.mem_cons, List.not_mem_nil, or_false] at hs
  rcases hs with hs | hs <;> subst hs <;> simp only [Option.some.injEq] at hp <;>
    rw [← hp] <;> norm_num

/-- C8 (counterexample): the claim says a page that fails to fetch *or
parse* is skipped and collection continues.  When page 2 fails to *parse*,
the exception is not caught (`except` names only
`requests.exceptions.RequestException`) and the whole collection aborts
instead of returning the rows of pages 0 and 1. -/
theorem C8_counterexample :
    scrape_dratings_data (.ok [samplePage0]) (.ok [samplePage1]) .parseError =
      Except.error () := by
  rfl

/-- C8 (amended): a page that fails to *fetch* is logged as skipped and
collection continues: with 3 pages where page 2 fails to fetch, the
collector returns the concatenated rows of pages 0 and 1, de-duplicated on
the `Teams` key keeping first occurrences, and its log reports exactly the
two found tables and the one skipped page.  (A parse failure, by contrast,
propagates — see the counterexample.) -/
theorem C8_fetch_failure_skipped (t0 t1 : DTable)
    (h0 : t0.hasPitchers = true) (h1 : t1.hasPitchers = true) :
    scrape_dratings_data (.ok [t0]) (.ok [t1]) .fetchError =
      Except.ok (some (drop_duplicates_teams (t0.rows ++ t1.rows)),
        [DrateLog.foundTable 0, DrateLog.foundTable 1, DrateLog.pageSkipped 2]) := by
  unfold scrape_dratings_data scrape_dratings_core
  have hfind0 : List.find? (fun t => t.hasPitchers) [t0] = some t0 := by
    simp [List.find?, h0]
  have hfind1 : List.find? (fun t => t.hasPitchers) [t1] = some t1 := by
    simp [List.find?, h1]
  simp [drateLoop, hfind0, hfind1, Except.map, List.flatten]

/-- Witness for C8 at the two sample pages. -/
theorem C8_witness :
    scrape_dratings_data (.ok [samplePage0]) (.ok [samplePage1]) .fetchError =
      Except.ok (some (drop_duplicates_teams (samplePage0.rows ++ samplePage1.rows)),
        [DrateLog.foundTable 0, DrateLog.foundTable 1, DrateLog.pageSkipped 2]) :=
  C8_fetch_failure_skipped samplePage0 samplePage1 rfl rfl

/-- C9: every distinguished failure case of the fixed-width parser yields
a reportable no-data outcome rather than a crash: a document with no
preformatted block gives `none`; a preformatted block without the header
phrase gives `none`; a located table region with zero parseable data lines
gives `none` (pandas raises, the broad `except` reports no data); and when
the separator phrase is missing from the table region, the parser falls
back to parsing the whole remainder of the text. -/
theorem C9_tpt_failure_modes :
    scrape_tpt_data { pre := none } = none ∧
    (∀ txt, splitFirst headerPhrase txt = none →
      scrape_tpt_data { pre := some txt } = none) ∧
    (∀ txt t, tptTableText txt = some t → nonBlankLines t = [] →
      scrape_tpt_data { pre := some txt } = none) ∧
    (∀ txt rest, splitFirst headerPhrase txt = some rest →
      splitFirst separatorPhrase
        (List.intercalate ['\n'] ((pySplitlines (headerPhrase ++ rest.2)).drop 2)) = none →
      scrape_tpt_data { pre := some txt } =
        parseTableText
          (List.intercalate ['\n'] ((pySplitlines (headerPhrase ++ rest.2)).drop 2))) := by
  refine ⟨rfl, ?_, ?_, ?_⟩
  · intro txt h
    simp [scrape_tpt_data, tptTableText, h]
  · intro txt t h1 h2
    simp [scrape_tpt_data, h1, parseTableText, h2]
  · intro txt rest hh hs
    obtain ⟨b, tailText⟩ := rest
    simp only [scrape_tpt_data, tptTableText, hh]
    rw [hs]

/-- Witness for C9: concrete documents for the missing-header case, the
zero-data-lines case, and the missing-separator fallback. -/
theorem C9_witness :
    scrape_tpt_data { pre := some "no table in sight".data } = none ∧
    scrape_tpt_data { pre := some headerPhrase } = none ∧
    scrape_tpt_data { pre := some sampleTptText } =
      parseTableText
        (List.intercalate ['\n']
          ((pySplitlines (headerPhrase ++
            "\n-----\nBuffalo             New England         -3.0".data)).drop 2)) :=
  ⟨C9_tpt_failure_modes.2.1 "no table in sight".data (by decide),
   C9_tpt_failure_modes.2.2.1 headerPhrase [] (by decide) (by decide),
   C9_tpt_failure_modes.2.2.2 sampleTptText
     ([], "\n-----\nBuffalo             New England         -3.0".data)
     (by decide) (by decide)⟩

end SB
